import Mathlib

/-
Shallow embedding of selenium-js2py (src/selenium_js2py/javascript.py,
src/selenium_js2py/jquery.py, src/selenium_js2py/_algae.py and the jacket
variants).  Python values returned by the remote executor are modelled by
`JSVal`; Python exceptions by `PExc`; the remote executor by a pure oracle
`ExecFn` together with an explicit log of issued scripts (`ExecState`), so
that executor round trips can be counted.
-/

/-- Exceptions raised by the library or by remote execution.  `userExc`
models an arbitrary third-party exception object; two `userExc` values are
the same Python object exactly when their codes agree, so equality models
object identity for captured failures. -/
inductive PExc
  | jacketExc (msg : String)
  | invalidAttr (msg : String)
  | attributeError (name : String)
  | typeError (msg : String)
  | userExc (code : Nat)
deriving DecidableEq, Repr

/-- Values passed to and returned from the JavaScript executor.  `velem`
models a selenium WebElement (identified by an id), `vtuple` a Python tuple
(the code passes the resolved `self._execargs` tuple as a single positional
argument in `_exec`). -/
inductive JSVal
  | vnull
  | vbool (b : Bool)
  | vnum (n : Nat)
  | vstr (s : String)
  | velem (id : Nat)
  | vlist (xs : List JSVal)
  | vtuple (xs : List JSVal)

/-- Comparison of an executor value with a Python string, as in
`res_type == "function"` (a non-string value never equals a string). -/
def JSVal.isStr : JSVal → String → Bool
  | JSVal.vstr t, s => t = s
  | _, _ => false

/-- Comparison of an executor value with Python `None`. -/
def JSVal.isNull : JSVal → Bool
  | JSVal.vnull => true
  | _ => false

/-- Result of one remote execution: a value or a raised exception. -/
abbrev ExecFn := String → List JSVal → Except PExc JSVal

/-- Log of the scripts (with their positional arguments) issued to the
executor, in order.  One entry is one round trip. -/
structure ExecState where
  log : List (String × List JSVal)

/-- Model of `JavaScriptExecutor.execute_script`: consults the remote oracle
and, on success, records the round trip in the log. -/
def executeScript (remote : ExecFn) (st : ExecState) (script : String)
    (args : List JSVal) : Except PExc (JSVal × ExecState) :=
  match remote script args with
  | Except.ok v => Except.ok (v, ExecState.mk (st.log ++ [(script, args)]))
  | Except.error e => Except.error e

/-- Character-level whitespace test used to model Python `str.strip`. -/
def isWs (c : Char) : Bool :=
  c = ' ' || c = '\t' || c = '\n' || c = '\r' || c = '\x0b' || c = '\x0c'

/-- Model of Python `str.strip` (ASCII whitespace suffices for this code). -/
def pstrip (s : String) : String :=
  String.mk (((s.data.dropWhile isWs).reverse.dropWhile isWs).reverse)

/-- Model of `_algae.noneoremptystr`: the stripped string when it is
non-empty, otherwise the empty string (Python returns a falsy value). -/
def noneoremptystr (s : String) : String := pstrip s

/-- Model of `str.startswith`. -/
def strStarts (s pat : String) : Bool := pat.data.isPrefixOf s.data

/-- Model of `str.endswith`. -/
def strEnds (s pat : String) : Bool := pat.data.isSuffixOf s.data

/-- Model of `_algae.enclosedby(string, pattern)`. -/
def enclosedby (string pat : String) : Bool :=
  strStarts string pat && strEnds string pat

/-- Leading character of a Python identifier (ASCII model of
`str.isidentifier`). -/
def isIdentStart (c : Char) : Bool := c.isAlpha || c = '_'

/-- Continuation character of a Python identifier. -/
def isIdentCont (c : Char) : Bool := c.isAlphanum || c = '_'

/-- Model of `str.isidentifier` (ASCII). -/
def isidentifier (s : String) : Bool :=
  match s.data with
  | [] => false
  | c :: cs => isIdentStart c && cs.all isIdentCont

/-- Model of `str.isdecimal` (ASCII digits). -/
def isdecimal (s : String) : Bool :=
  !s.data.isEmpty && s.data.all Char.isDigit

/-- Consumes digit characters, returning how many were consumed and the
remainder. -/
def spanDigits : List Char → Nat × List Char
  | [] => (0, [])
  | c :: cs =>
    if c.isDigit then
      let r := spanDigits cs
      (r.1 + 1, r.2)
    else (0, c :: cs)

/-- Matches one occurrence of the regex `arguments\[\d+]` at the head of the
character list, returning the remainder after the match. -/
def matchArgRef : List Char → Option (List Char)
  | 'a' :: 'r' :: 'g' :: 'u' :: 'm' :: 'e' :: 'n' :: 't' :: 's' :: '[' :: rest =>
    match spanDigits rest with
    | (0, _) => none
    | (_ + 1, ']' :: r2) => some r2
    | (_ + 1, _) => none
  | _ => none

/-- Fuel-bounded scan counting non-overlapping matches of
`arguments\[\d+]`, as `re.findall` does; the fuel is the list length, which
always suffices because every step consumes at least one character. -/
def countArgRefsFuel : Nat → List Char → Nat
  | 0, _ => 0
  | _, [] => 0
  | fuel + 1, c :: cs =>
    match matchArgRef (c :: cs) with
    | some r2 => 1 + countArgRefsFuel fuel r2
    | none => countArgRefsFuel fuel cs

/-- Model of `len(_algae.findargs(string))`: the number of
`arguments[<digits>]` references occurring in the string. -/
def findargsCount (s : String) : Nat := countArgRefsFuel s.data.length s.data

/-- Model of `_algae.setupargs(lambda i: i, 0, stop)`. -/
def setupargs (stop : Nat) : List String :=
  (List.range stop).map (fun i => "arguments[" ++ Nat.repr i ++ "]")

/-- Model of `sep.join(parts)`. -/
def joinWith (sep : String) : List String → String
  | [] => ""
  | [s] => s
  | s :: rest => s ++ sep ++ joinWith sep rest

/-- The wrapped object of a `JavaScriptObject`: either a string (a name or
script fragment) or an arbitrary non-string Python object. -/
inductive ObjRef
  | jstr (s : String)
  | pyobj (v : JSVal)

/-- Global invoke options with the defaults of `_configureglobalopts`. -/
structure GlobalOpts where
  cacheattrs : Bool := false
  cacheprops : Bool := true
  cachefuncs : Bool := true
  overwrite : Bool := true
  strobj : Bool := false
deriving DecidableEq, Repr

/-- Per-call invoke options (`cacheattr`, `iffunc`, `ifprop`, `overwrite`);
`none` means the keyword was not supplied, so the global option applies
(`JavaScriptObject._getopt`). -/
structure LocalOpts where
  cacheattr : Option Bool := none
  iffunc : Option Bool := none
  ifprop : Option Bool := none
  overwrite : Option Bool := none
deriving DecidableEq, Repr

/-- Model of `JavaScriptObject._getopt`: the local option when supplied,
otherwise the global one. -/
def getopt (lcl : Option Bool) (glbl : Bool) : Bool :=
  match lcl with
  | none => glbl
  | some b => b

/-- The callable proxy produced by `JavaScriptObject.wrapfunction`: a fixed
script, the arguments bound at wrap time (the wrapped object when it is
passed positionally, the resolved `_execargs` tuple and the extra executor
arguments), and the remote function's arity. -/
structure FuncProxy where
  script : String
  preargs : List JSVal
  arity : Nat

/-- The getter produced by `JavaScriptObject.wrapproperty`: a fixed script
and the arguments bound at wrap time; `asFunction` records the
`as_function` keyword (a Python `property` wraps the same getter when it is
false). -/
structure PropProxy where
  script : String
  args : List JSVal
  asFunction : Bool

/-- A Python value as returned by `invoke`, `__getattr__` or `__getitem__`
and as stored in the attribute cache: `None`, a function proxy, a property
getter, or a plain remote value. -/
inductive RetVal
  | vnone
  | fn (p : FuncProxy)
  | getter (g : PropProxy)
  | val (v : JSVal)

/-- Python truthiness of a cache candidate: `None` is falsy, callables are
truthy. -/
def RetVal.truthy : RetVal → Bool
  | RetVal.vnone => false
  | _ => true

/-- State of a `JavaScriptObject`: the wrapped object, the `strobj` flag,
the extra executor arguments `_execargs`, the attribute cache `_attrs`
(keyed like the Python dict, where the key may be `None`), and the four
global caching options set as instance attributes by `__init__`. -/
structure JavaScriptObject where
  obj : Option ObjRef
  strobj : Bool
  execargs : List JSVal
  attrs : List (Option String × RetVal)
  cacheattrs : Bool
  cachefuncs : Bool
  cacheprops : Bool
  overwrite : Bool

/-- Model of `JavaScriptObject.__init__`: stores the object and options,
then normalizes a string object when `strobj` is false — a quoted string is
unquoted and becomes an opaque value, a non-empty string is stripped and
used as a name, and an empty or whitespace string leaves no wrapped object
(`_obj = None`, `strobj = True`). -/
def mkJavaScriptObject (obj : Option ObjRef) (execargs : List JSVal)
    (opts : GlobalOpts) : JavaScriptObject :=
  let base : JavaScriptObject :=
    { obj := obj, strobj := opts.strobj, execargs := execargs, attrs := [],
      cacheattrs := opts.cacheattrs, cachefuncs := opts.cachefuncs,
      cacheprops := opts.cacheprops, overwrite := opts.overwrite }
  match obj with
  | some (ObjRef.jstr s) =>
    if opts.strobj then base
    else if enclosedby s "\"" || enclosedby s "\x27" then
      { base with obj := some (ObjRef.jstr (String.mk ((s.data.drop 1).dropLast))),
                  strobj := true }
    else if noneoremptystr s ≠ "" then
      { base with obj := some (ObjRef.jstr (noneoremptystr s)) }
    else
      { base with obj := none, strobj := true }
  | _ => base

/-- Model of the `JavaScriptObject.definition_root` property. -/
def JavaScriptObject.definition_root (o : JavaScriptObject) : Option String :=
  match o.obj with
  | none => none
  | some (ObjRef.jstr s) => if o.strobj then some "arguments[0]" else some s
  | some (ObjRef.pyobj _) => some "arguments[0]"

/-- The wrapped object as the value passed positionally to scripts. -/
def objVal (o : JavaScriptObject) : JSVal :=
  match o.obj with
  | none => JSVal.vnull
  | some (ObjRef.jstr s) => JSVal.vstr s
  | some (ObjRef.pyobj v) => v

/-- Model of the inner `stringify` helper of `JavaScriptObject._define`:
attaches an attribute name to the object root. -/
def stringify (oname name : String) : String :=
  if name = "" then oname
  else if isdecimal name || !isidentifier name then oname ++ "[\"" ++ name ++ "\"]"
  else if strStarts name "[" then oname ++ name
  else oname ++ "." ++ name

/-- Model of `JavaScriptObject._define`: computes the script root for an
attribute access and whether the wrapped object is passed positionally. -/
def JavaScriptObject._define (o : JavaScriptObject) (name? : Option String) :
    Except PExc (String × Bool) :=
  let name := noneoremptystr (match name? with | none => "" | some s => s)
  match o.obj, o.strobj with
  | some (ObjRef.jstr s), false => Except.ok (stringify s name, false)
  | none, _ =>
    if name = "" then Except.error (PExc.invalidAttr "Expected attribute name.")
    else if isdecimal name then Except.error (PExc.invalidAttr "Unexpected number.")
    else Except.ok (name, false)
  | some _, _ => Except.ok (stringify "arguments[0]" name, true)

/-- Arguments assembled by `JavaScriptObject._exec`: the resolved
`_execargs` tuple is passed as one positional argument, preceded by the
wrapped object when `passobj` holds. -/
def execCallArgs (o : JavaScriptObject) (passobj : Bool) (args : List JSVal) :
    List JSVal :=
  let args2 := JSVal.vtuple o.execargs :: args
  if passobj then objVal o :: args2 else args2

/-- Model of `JavaScriptObject._exec`: one executor round trip running
`return <stmt>`. -/
def JavaScriptObject._exec (o : JavaScriptObject) (remote : ExecFn)
    (st : ExecState) (stmt : String) (passobj : Bool) (args : List JSVal) :
    Except PExc (JSVal × ExecState) :=
  executeScript remote st ("return " ++ stmt) (execCallArgs o passobj args)

/-- Model of `JavaScriptObject.wrapfunction`: one round trip checks the
remote `typeof`; when it is a function, one further round trip reads its
arity and a callable proxy is returned, otherwise the method falls through
and returns `None`.  The `argnames` keyword only renames the parameters of
the produced Python lambda and is semantically inert, so it is omitted. -/
def JavaScriptObject.wrapfunction (o : JavaScriptObject) (remote : ExecFn)
    (st : ExecState) (name? : Option String) (execargs : List JSVal) :
    Except PExc (Option FuncProxy × ExecState) :=
  match o._define name? with
  | Except.error e => Except.error e
  | Except.ok (jsdef, passobj) =>
    match o._exec remote st ("typeof(" ++ jsdef ++ ")") passobj execargs with
    | Except.error e => Except.error e
    | Except.ok (resType, st1) =>
      if resType.isStr "function" then
        match o._exec remote st1 (jsdef ++ ".length") passobj execargs with
        | Except.error e => Except.error e
        | Except.ok (JSVal.vnum arity, st2) =>
          let preargs := (if passobj then [objVal o] else []) ++
            (JSVal.vtuple o.execargs :: execargs)
          if arity = 0 then
            Except.ok (some { script := "return " ++ jsdef ++ "()",
                              preargs := preargs, arity := 0 }, st2)
          else
            let argind := findargsCount jsdef
            let argsstr := joinWith ", " ((List.range arity).map
              (fun i => "arguments[" ++ Nat.repr (i + argind) ++ "]"))
            Except.ok (some { script := "return " ++ jsdef ++ "(" ++ argsstr ++ ")",
                              preargs := preargs, arity := arity }, st2)
        | Except.ok (_, _) =>
          Except.error (PExc.typeError "object cannot be interpreted as an integer")
      else Except.ok (none, st1)

/-- Invocation of a proxy returned by `wrapfunction`: the fixed script is
sent in one round trip with the bound arguments followed by the call
arguments; an argument-count mismatch raises, as calling the produced
Python lambda would. -/
def callProxy (p : FuncProxy) (remote : ExecFn) (st : ExecState)
    (callargs : List JSVal) : Except PExc (JSVal × ExecState) :=
  if callargs.length = p.arity then
    executeScript remote st p.script (p.preargs ++ callargs)
  else Except.error (PExc.typeError "unexpected number of arguments")

/-- Model of `JavaScriptObject.wrapproperty`: one round trip checks the
remote `typeof`; a getter is returned unless the type is `function` or
`undefined`, in which case the method falls through and returns `None`. -/
def JavaScriptObject.wrapproperty (o : JavaScriptObject) (remote : ExecFn)
    (st : ExecState) (name? : Option String) (execargs : List JSVal)
    (as_function : Bool) : Except PExc (Option PropProxy × ExecState) :=
  match o._define name? with
  | Except.error e => Except.error e
  | Except.ok (jsdef, passobj) =>
    match o._exec remote st ("typeof(" ++ jsdef ++ ")") passobj execargs with
    | Except.error e => Except.error e
    | Except.ok (resType, st1) =>
      if resType.isStr "function" || resType.isStr "undefined" then
        Except.ok (none, st1)
      else
        Except.ok (some { script := "return " ++ jsdef,
                          args := (if passobj then [objVal o] else []) ++
                            (JSVal.vtuple o.execargs :: execargs),
                          asFunction := as_function }, st1)

/-- Invocation of a getter returned by `wrapproperty`: one round trip. -/
def callGetter (g : PropProxy) (remote : ExecFn) (st : ExecState) :
    Except PExc (JSVal × ExecState) :=
  executeScript remote st g.script g.args

/-- The caching block at the end of `JavaScriptObject.invoke`: when caching
applies, the stored entry is the function proxy, the property getter, or
`None` (Python `attr` stays `None` when the kind-specific flag rejects the
resolved attribute), and the entry is written when the attribute is truthy
and not yet cached, or when overwrite is on. -/
def cacheUpdate (o : JavaScriptObject) (name : Option String)
    (f : Option FuncProxy) (prop : Option PropProxy) (opts : LocalOpts) :
    JavaScriptObject :=
  if getopt opts.cacheattr o.cacheattrs then
    let attr : RetVal :=
      if f.isSome && getopt opts.iffunc o.cachefuncs then
        match f with
        | some p => RetVal.fn p
        | none => RetVal.vnone
      else if getopt opts.ifprop o.cacheprops then
        match prop with
        | some g => RetVal.getter g
        | none => RetVal.vnone
      else RetVal.vnone
    let ow := getopt opts.overwrite o.overwrite
    if (attr.truthy && (o.attrs.lookup name).isNone) || ow then
      { o with attrs := (name, attr) :: o.attrs }
    else o
  else o

/-- Model of `JavaScriptObject.invoke`: resolve the name as a function
first; a resolved function is returned as a proxy (or called when
`attrargs` is supplied); when the name is not a function, supplying
`attrargs` raises `InvalidJavaScriptAttribute`; otherwise the name is
resolved as a property and its value returned; when neither resolves, the
method returns `None` before the caching block runs. -/
def JavaScriptObject.invoke (o : JavaScriptObject) (remote : ExecFn)
    (st : ExecState) (name : Option String) (execargs : List JSVal)
    (attrargs : Option (List JSVal)) (opts : LocalOpts) :
    Except PExc (RetVal × JavaScriptObject × ExecState) :=
  match o.wrapfunction remote st name execargs with
  | Except.error e => Except.error e
  | Except.ok (some f, st1) =>
    match attrargs with
    | none => Except.ok (RetVal.fn f, cacheUpdate o name (some f) none opts, st1)
    | some aargs =>
      match callProxy f remote st1 aargs with
      | Except.error e => Except.error e
      | Except.ok (v, st2) =>
        Except.ok (RetVal.val v, cacheUpdate o name (some f) none opts, st2)
  | Except.ok (none, st1) =>
    match attrargs with
    | some _ =>
      Except.error (PExc.invalidAttr ("No function named " ++
        (match name with | some s => s | none => "None") ++ "."))
    | none =>
      match o.wrapproperty remote st1 name execargs true with
      | Except.error e => Except.error e
      | Except.ok (some g, st2) =>
        match callGetter g remote st2 with
        | Except.error e => Except.error e
        | Except.ok (v, st3) =>
          Except.ok (RetVal.val v, cacheUpdate o name none (some g) opts, st3)
      | Except.ok (none, st2) => Except.ok (RetVal.vnone, o, st2)

/-- Model of `JavaScriptObject.__getattr__`: a cached entry is returned as
is; a dunder or non-identifier name raises; otherwise the name is resolved
through `invoke` with default options. -/
def JavaScriptObject.getattrAccess (o : JavaScriptObject) (remote : ExecFn)
    (st : ExecState) (name : String) :
    Except PExc (RetVal × JavaScriptObject × ExecState) :=
  match o.attrs.lookup (some name) with
  | some rv => Except.ok (rv, o, st)
  | none =>
    if !isidentifier name || (strStarts name "__" && strEnds name "__") then
      Except.error (PExc.invalidAttr (name ++ " must be invoked via invoke or item access."))
    else o.invoke remote st (some name) [] none {}

/-- Model of `JavaScriptObject.__getitem__`: a cached entry is returned as
is; otherwise the name is resolved through `invoke` with default options. -/
def JavaScriptObject.getitemAccess (o : JavaScriptObject) (remote : ExecFn)
    (st : ExecState) (name : String) (execargs : List JSVal) :
    Except PExc (RetVal × JavaScriptObject × ExecState) :=
  match o.attrs.lookup (some name) with
  | some rv => Except.ok (rv, o, st)
  | none => o.invoke remote st (some name) execargs none {}

/-- Model of `JavaScriptObject.get`.  The source guard is
`not ((name := noneoremptystr(name)) or name.isidentifier())`, with `or`
where `new` uses `and`, so the guard only fires for empty names and a
non-identifier name is sent to the executor unchecked. -/
def JavaScriptObject.get (_o : JavaScriptObject) (remote : ExecFn)
    (st : ExecState) (name : String) : Except PExc (JSVal × ExecState) :=
  let n := noneoremptystr name
  if (n == "") && !isidentifier n then
    Except.error (PExc.jacketExc "Expected valid identifier.")
  else executeScript remote st ("return " ++ n) []

/-- Model of `JavaScriptObject.set`, with the same `or` guard as `get`. -/
def JavaScriptObject.set (_o : JavaScriptObject) (remote : ExecFn)
    (st : ExecState) (name : String) (expr : JSVal) :
    Except PExc (JSVal × ExecState) :=
  let n := noneoremptystr name
  if (n == "") && !isidentifier n then
    Except.error (PExc.jacketExc "Expected valid identifier.")
  else executeScript remote st (n ++ " = arguments[0]") [expr]

/-- Model of `JavaScriptObject.new`: validates both names before any
executor call, then runs the constructor script and wraps the stored
variable by name. -/
def JavaScriptObject.new (obj name : String) (remote : ExecFn) (st : ExecState)
    (ctorargs : List JSVal) (opts : GlobalOpts) :
    Except PExc (JavaScriptObject × ExecState) :=
  let n := noneoremptystr name
  if (n == "") || !isidentifier n then
    Except.error (PExc.invalidAttr ("Invalid identifier " ++ n ++ "."))
  else
    let ob := noneoremptystr obj
    if (ob == "") || !isidentifier ob then
      Except.error (PExc.invalidAttr ("Invalid object " ++ ob ++ "."))
    else
      let script :=
        if ctorargs.length > 0 then
          n ++ " = new " ++ ob ++ "(" ++ joinWith "," (setupargs ctorargs.length) ++ ")"
        else n ++ " = new " ++ ob ++ "()"
      match executeScript remote st script (if ctorargs.length > 0 then ctorargs else []) with
      | Except.error e => Except.error e
      | Except.ok (_, st1) =>
        Except.ok (mkJavaScriptObject (some (ObjRef.jstr n)) []
          { opts with strobj := false }, st1)

/-- Model of `JavaScriptObject.attributes`: own-property enumeration built
on the representation chosen by `_define`. -/
def JavaScriptObject.attributesM (o : JavaScriptObject) (remote : ExecFn)
    (st : ExecState) (execargs : List JSVal) :
    Except PExc (JSVal × ExecState) :=
  match o._define none with
  | Except.error e => Except.error e
  | Except.ok (jsdef, passobj) =>
    o._exec remote st ("Object.getOwnPropertyNames(" ++ jsdef ++ ")") passobj execargs

/-- The `exception` argument of a response constructor: a message string or
an exception object. -/
inductive ExcArg
  | strE (s : String)
  | excE (e : PExc)

/-- Truthiness and wrapping of the `exception` constructor argument:
`if exception:` treats an empty string and `None` as no failure, and a
truthy string is wrapped in a `JacketException` while an exception object
is stored as is. -/
def effectiveExc : Option ExcArg → Option PExc
  | none => none
  | some (ExcArg.strE s) => if s == "" then none else some (PExc.jacketExc s)
  | some (ExcArg.excE e) => some e

/-- State of a `JavaScriptResponse` (javascript.py): the captured failure
`_exc`, the raw response `_raw`, and the `JavaScriptObject` state installed
by `super().__init__`.  The `_r` attribute read by the `response` property
is never assigned anywhere in the class. -/
structure JSResponse where
  exc : Option PExc
  raw : JSVal
  inner : JavaScriptObject

/-- The wrapped object stored for a response: a string response is a name
or script fragment, `None` is no object, anything else is opaque. -/
def objRefOf : JSVal → Option ObjRef
  | JSVal.vnull => none
  | JSVal.vstr s => some (ObjRef.jstr s)
  | v => some (ObjRef.pyobj v)

/-- The failed `JavaScriptResponse` built by
`JavaScriptResponse(None, jsexec, exc)`: the failure path of `__init__`
replaces the response with `None`, computes `strobj = False`, and because
the object is `None` the superclass initializer performs no attribute read
that would trigger the deferred raise, so construction succeeds. -/
def mkFailedJSResponse (e : PExc) : JSResponse :=
  { exc := some e, raw := JSVal.vnull,
    inner := mkJavaScriptObject none [] { strobj := false } }

/-- Model of `JavaScriptResponse.__init__`.  With a truthy exception the
response is replaced by `None` and construction succeeds with the failure
stored.  Otherwise the constructor builds a `JavaScriptObject` that is
bound only to a local and discarded, computes `strobj` — probing the
executor when the response is an identifier string (note the flipped
argument order `enclosedby('"', response)` in the source, which compares
the quote against the response) — and runs the superclass initializer.
A failure of the probe propagates. -/
def mkJavaScriptResponse (response : JSVal) (remote : ExecFn) (st : ExecState)
    (exception : Option ExcArg) (opts : GlobalOpts) :
    Except PExc (JSResponse × ExecState) :=
  match effectiveExc exception with
  | some e =>
    Except.ok ({ exc := some e, raw := JSVal.vnull,
                 inner := mkJavaScriptObject none [] { opts with strobj := false } }, st)
  | none =>
    match response with
    | JSVal.vstr s =>
      if !(enclosedby "\"" s || enclosedby "\x27" s) then
        if isidentifier s then
          match executeScript remote st ("return " ++ s) [] with
          | Except.error e2 => Except.error e2
          | Except.ok (v, st1) =>
            Except.ok ({ exc := none, raw := response,
                         inner := mkJavaScriptObject (objRefOf response) []
                           { opts with strobj := v.isNull } }, st1)
        else
          Except.ok ({ exc := none, raw := response,
                       inner := mkJavaScriptObject (objRefOf response) []
                         { opts with strobj := true } }, st)
      else
        Except.ok ({ exc := none, raw := response,
                     inner := mkJavaScriptObject (objRefOf response) []
                       { opts with strobj := false } }, st)
    | v =>
      Except.ok ({ exc := none, raw := v,
                   inner := mkJavaScriptObject (objRefOf v) []
                     { opts with strobj := false } }, st)

/-- A Python value produced by attribute access on a response object: a
bound method, the `_exc` value (an exception object or `None`), the raw
response, a boolean, the executor, or a freshly built failed
`JavaScriptResponse` (the value returned by the `except` branch of
`JavaScriptResponse.__getattribute__`). -/
inductive JAttrVal
  | meth (name : String)
  | excv (e : Option PExc)
  | rawv (v : JSVal)
  | boolv (b : Bool)
  | jsexecv
  | respv (r : JSResponse)

/-- Plain object-level attribute lookup on a `JavaScriptResponse`
(`object.__getattribute__`), with the property getters of the class
unfolded: each getter body reads `self.<attr>` through the overridden
`__getattribute__`, so on a failed response it re-raises the captured
failure, and the `response` getter reads the never-assigned `_r`, whose
`AttributeError` is caught by the inner `__getattribute__` call and turned
into a failed `JavaScriptResponse`. -/
def jsrObjectGetattr (r : JSResponse) : String → Except PExc JAttrVal
  | "_exc" => Except.ok (JAttrVal.excv r.exc)
  | "_raw" => Except.ok (JAttrVal.rawv r.raw)
  | "_jsexec" => Except.ok JAttrVal.jsexecv
  | "strobj" => Except.ok (JAttrVal.boolv r.inner.strobj)
  | "__bool__" => Except.ok (JAttrVal.meth "__bool__")
  | "exception" =>
    match r.exc with
    | some e => Except.error e
    | none => Except.ok (JAttrVal.excv none)
  | "success" =>
    match r.exc with
    | some e => Except.error e
    | none => Except.ok (JAttrVal.boolv true)
  | "raw_response" =>
    match r.exc with
    | some e => Except.error e
    | none => Except.ok (JAttrVal.rawv r.raw)
  | "response" =>
    match r.exc with
    | some e => Except.error e
    | none => Except.ok (JAttrVal.respv (mkFailedJSResponse (PExc.attributeError "_r")))
  | "_r" => Except.error (PExc.attributeError "_r")
  | item => Except.error (PExc.attributeError item)

/-- Model of `JavaScriptResponse.__getattribute__`: with a captured failure
every item other than `__bool__` raises it; otherwise the object-level
lookup runs inside a `try`, and any exception it raises is swallowed and
returned as a new failed `JavaScriptResponse`. -/
def jsrGetattribute (r : JSResponse) (item : String) : Except PExc JAttrVal :=
  match r.exc with
  | some e =>
    if item == "__bool__" then
      match jsrObjectGetattr r item with
      | Except.ok v => Except.ok v
      | Except.error e2 => Except.ok (JAttrVal.respv (mkFailedJSResponse e2))
    else Except.error e
  | none =>
    match jsrObjectGetattr r item with
    | Except.ok v => Except.ok v
    | Except.error e2 => Except.ok (JAttrVal.respv (mkFailedJSResponse e2))

/-- Python `value is None` on an attribute value. -/
def pyIsNone : JAttrVal → Bool
  | JAttrVal.excv none => true
  | _ => false

/-- Model of evaluating a `JavaScriptResponse` in boolean context: `bool()`
invokes the `__bool__` slot directly, but the body `self._exc is None`
reads `_exc` through the overridden `__getattribute__`. -/
def jsrBool (r : JSResponse) : Except PExc Bool :=
  match jsrGetattribute r "_exc" with
  | Except.error e => Except.error e
  | Except.ok v => Except.ok (pyIsNone v)

/-- State of a `JQueryResponse` (jquery.py): like `JSResponse`; the locally
computed `_res` (a `JQueryElement` or list of them) is never assigned to
`_r` either. -/
structure JQResponse where
  exc : Option PExc
  raw : JSVal
  inner : JavaScriptObject

/-- Whether an executor value is a selenium WebElement. -/
def isElemV : JSVal → Bool
  | JSVal.velem _ => true
  | _ => false

/-- The failure computed by the non-exception branch of
`JQueryResponse.__init__`: an element or a list (or tuple) of elements is
accepted; iterating a string yields characters, which fail the element
check unless the string is empty; a non-iterable response makes `iter`
raise `TypeError`. -/
def computeJQExc : JSVal → Option PExc
  | JSVal.velem _ => none
  | JSVal.vlist xs =>
    if xs.all isElemV then none
    else some (PExc.typeError "Expected Element or Iterable[Element] as a response.")
  | JSVal.vtuple xs =>
    if xs.all isElemV then none
    else some (PExc.typeError "Expected Element or Iterable[Element] as a response.")
  | JSVal.vstr s =>
    if s == "" then none
    else some (PExc.typeError "Expected Element or Iterable[Element] as a response.")
  | _ => some (PExc.typeError "object is not iterable")

/-- Model of `JQueryResponse.__init__`.  The computed failure is stored in
`self._exc` before `super().__init__` runs; the superclass initializer then
reads `self.strobj` (its object `"$(arguments[0])"` is a string), that read
goes through the overridden `__getattribute__`, and with `_exc` set it
raises the captured failure — so constructing any failed `JQueryResponse`
raises instead of returning, and only successful responses exist. -/
def mkJQueryResponse (response : JSVal) (exception : Option ExcArg)
    (opts : GlobalOpts) : Except PExc JQResponse :=
  let exc :=
    match effectiveExc exception with
    | some e => some e
    | none => computeJQExc response
  match exc with
  | some e => Except.error e
  | none =>
    Except.ok { exc := none, raw := response,
                inner := mkJavaScriptObject (some (ObjRef.jstr "$(arguments[0])"))
                  [response] { opts with strobj := false } }

/-- Plain object-level attribute lookup on a `JQueryResponse`, with the
property getters unfolded as for `jsrObjectGetattr`; this class has no
`try` in `__getattribute__`, so the `AttributeError` from the never
assigned `_r` propagates. -/
def jqrObjectGetattr (r : JQResponse) : String → Except PExc JAttrVal
  | "_exc" => Except.ok (JAttrVal.excv r.exc)
  | "_raw" => Except.ok (JAttrVal.rawv r.raw)
  | "_jsexec" => Except.ok JAttrVal.jsexecv
  | "strobj" => Except.ok (JAttrVal.boolv r.inner.strobj)
  | "__bool__" => Except.ok (JAttrVal.meth "__bool__")
  | "exception" =>
    match r.exc with
    | some e => Except.error e
    | none => Except.ok (JAttrVal.excv none)
  | "success" =>
    match r.exc with
    | some e => Except.error e
    | none => Except.ok (JAttrVal.boolv true)
  | "raw_response" =>
    match r.exc with
    | some e => Except.error e
    | none => Except.ok (JAttrVal.rawv r.raw)
  | "response" =>
    match r.exc with
    | some e => Except.error e
    | none => Except.error (PExc.attributeError "_r")
  | "_r" => Except.error (PExc.attributeError "_r")
  | item => Except.error (PExc.attributeError item)

/-- Model of `JQueryResponse.__getattribute__`: with a captured failure
every item other than `__bool__` raises it; otherwise the plain lookup
runs, uncaught. -/
def jqrGetattribute (r : JQResponse) (item : String) : Except PExc JAttrVal :=
  match r.exc with
  | some e => if item == "__bool__" then jqrObjectGetattr r item else Except.error e
  | none => jqrObjectGetattr r item

/-- Model of evaluating a `JQueryResponse` in boolean context. -/
def jqrBool (r : JQResponse) : Except PExc Bool :=
  match jqrGetattribute r "_exc" with
  | Except.error e => Except.error e
  | Except.ok v => Except.ok (pyIsNone v)

/-- Model of `JQueryElement.__init__`: the element is wrapped as an
argument to the jquery function, passed as the single extra executor
argument. -/
def mkJQueryElement (element : JSVal) (opts : GlobalOpts) : JavaScriptObject :=
  mkJavaScriptObject (some (ObjRef.jstr "$(arguments[0])")) [element]
    { opts with strobj := false }

/-- Result of `S.execute_script`: a wrapped element, a response wrapper, or
the plain value. -/
inductive SResult
  | elem (o : JavaScriptObject)
  | resp (r : JQResponse)
  | val (v : JSVal)

/-- Model of `S.execute_script` (and `Q.execute_script` in jacket): the
underlying call is guarded by `try`, and a raised exception is meant to be
returned as a failed `JQueryResponse`; a successful element or non-empty
element list is wrapped, anything else is returned as is. -/
def S_execute_script (remote : ExecFn) (st : ExecState) (script : String)
    (args : List JSVal) : Except PExc (SResult × ExecState) :=
  match executeScript remote st script args with
  | Except.error exc =>
    (match mkJQueryResponse (JSVal.vlist []) (some (ExcArg.excE exc)) {} with
     | Except.error e => Except.error e
     | Except.ok r => Except.ok (SResult.resp r, st))
  | Except.ok (res, st1) =>
    match res with
    | JSVal.velem k => Except.ok (SResult.elem (mkJQueryElement (JSVal.velem k) {}), st1)
    | JSVal.vlist (x :: xs) =>
      if isElemV x then
        match mkJQueryResponse (JSVal.vlist (x :: xs)) none {} with
        | Except.error e => Except.error e
        | Except.ok r => Except.ok (SResult.resp r, st1)
      else Except.ok (SResult.val (JSVal.vlist (x :: xs)), st1)
    | v => Except.ok (SResult.val v, st1)

/-- Concrete wrapped object used by witnesses: the global name `w`. -/
def oW : JavaScriptObject := mkJavaScriptObject (some (ObjRef.jstr "w")) [] {}

/-- Executor oracle that echoes the script it was given. -/
def remoteEcho : ExecFn := fun s _ => Except.ok (JSVal.vstr s)

/-- Executor oracle that raises on every script. -/
def remoteRaise : ExecFn := fun _ _ => Except.error (PExc.userExc 3)

/-- Executor oracle that returns `null` on every script. -/
def remoteNull : ExecFn := fun _ _ => Except.ok JSVal.vnull

/-- Executor oracle for which every name has remote type `undefined`. -/
def remoteUndef : ExecFn := fun _ _ => Except.ok (JSVal.vstr "undefined")

/-- Executor oracle under which `w.x` is a number-valued property. -/
def remoteProp : ExecFn := fun s _ =>
  if s == "return typeof(w.x)" then Except.ok (JSVal.vstr "number")
  else if s == "return w.x" then Except.ok (JSVal.vnum 7)
  else Except.ok JSVal.vnull

/-- Executor oracle under which `w.f` is a nullary function returning 99. -/
def remoteFunc : ExecFn := fun s _ =>
  if s == "return typeof(w.f)" then Except.ok (JSVal.vstr "function")
  else if s == "return w.f.length" then Except.ok (JSVal.vnum 0)
  else Except.ok (JSVal.vnum 99)

/-- The getter that `wrapproperty` builds for a defined property at root
`jsdef`. -/
def propGetterOf (o : JavaScriptObject) (jsdef : String) (passobj : Bool)
    (execargs : List JSVal) : PropProxy :=
  { script := "return " ++ jsdef,
    args := (if passobj then [objVal o] else []) ++
      (JSVal.vtuple o.execargs :: execargs),
    asFunction := true }

/-- The proxy that `wrapfunction` builds for a nullary remote function at
root `jsdef`. -/
def nullaryProxyOf (o : JavaScriptObject) (jsdef : String) (passobj : Bool)
    (execargs : List JSVal) : FuncProxy :=
  { script := "return " ++ jsdef ++ "()",
    preargs := (if passobj then [objVal o] else []) ++
      (JSVal.vtuple o.execargs :: execargs),
    arity := 0 }

/-- The object after the cache gained an entry for `name`. -/
def cachedWith (o : JavaScriptObject) (name : String) (rv : RetVal) :
    JavaScriptObject :=
  { o with attrs := (some name, rv) :: o.attrs }

/-- The successful `JavaScriptResponse` built from the element response 5. -/
def jsrElem5 : JSResponse :=
  { exc := none, raw := JSVal.velem 5,
    inner := mkJavaScriptObject (some (ObjRef.pyobj (JSVal.velem 5))) []
      { strobj := false } }

/-- The successful `JavaScriptResponse` built from a `None` response. -/
def jsrNullOk : JSResponse :=
  { exc := none, raw := JSVal.vnull,
    inner := mkJavaScriptObject none [] { strobj := false } }

/-- The successful `JQueryResponse` built from an empty element list. -/
def jqrNilOk : JQResponse :=
  { exc := none, raw := JSVal.vlist [],
    inner := mkJavaScriptObject (some (ObjRef.jstr "$(arguments[0])"))
      [JSVal.vlist []] { strobj := false } }

/-- Helper: a successful `execute_script` call extends the log by exactly
one entry. -/
theorem executeScript_ok_log (remote : ExecFn) (st : ExecState) (script : String)
    (args : List JSVal) (v : JSVal) (st2 : ExecState)
    (h : executeScript remote st script args = Except.ok (v, st2)) :
    st2.log.length = st.log.length + 1 := by
  unfold executeScript at h
  cases hr : remote script args with
  | error e => rw [hr] at h; cases h
  | ok w =>
    rw [hr] at h
    simp only [Except.ok.injEq, Prod.mk.injEq] at h
    rw [← h.2]
    simp

/-- Helper: a successful `_exec` call extends the log by exactly one
entry. -/
theorem exec_ok_log (o : JavaScriptObject) (remote : ExecFn) (st : ExecState)
    (stmt : String) (passobj : Bool) (args : List JSVal) (v : JSVal)
    (st2 : ExecState)
    (h : o._exec remote st stmt passobj args = Except.ok (v, st2)) :
    st2.log.length = st.log.length + 1 :=
  executeScript_ok_log remote st ("return " ++ stmt)
    (execCallArgs o passobj args) v st2 h

/-- Helper: a cached name is returned by `__getattr__` from the cache, with
the object and the executor log untouched. -/
theorem getattr_cached (o : JavaScriptObject) (remote : ExecFn) (st : ExecState)
    (name : String) (rv : RetVal)
    (h : o.attrs.lookup (some name) = some rv) :
    o.getattrAccess remote st name = Except.ok (rv, o, st) := by
  unfold JavaScriptObject.getattrAccess
  rw [h]

/-- Helper: a cached name is returned by `__getitem__` from the cache, with
the object and the executor log untouched. -/
theorem getitem_cached (o : JavaScriptObject) (remote : ExecFn) (st : ExecState)
    (name : String) (execargs : List JSVal) (rv : RetVal)
    (h : o.attrs.lookup (some name) = some rv) :
    o.getitemAccess remote st name execargs = Except.ok (rv, o, st) := by
  unfold JavaScriptObject.getitemAccess
  rw [h]

/-- C1: the claim says a response constructed with a failure never raises
in boolean context and returns `False`.  In the code, the body of
`__bool__` reads `self._exc` through the overridden `__getattribute__`,
which re-raises the captured failure for every item other than the literal
`"__bool__"`, so `bool(response)` raises the original exception instead of
returning `False`; for `JQueryResponse` the deferred raise already fires
inside the constructor.  Attribute access other than `__bool__` does raise
the original exception object unwrapped, as the claim states. -/
theorem c1_failed_response_bool_raises :
    mkJavaScriptResponse JSVal.vnull remoteNull (ExecState.mk [])
        (some (ExcArg.excE (PExc.userExc 7))) {} =
      Except.ok (mkFailedJSResponse (PExc.userExc 7), ExecState.mk []) ∧
    jsrBool (mkFailedJSResponse (PExc.userExc 7)) =
      Except.error (PExc.userExc 7) ∧
    jsrGetattribute (mkFailedJSResponse (PExc.userExc 7)) "exception" =
      Except.error (PExc.userExc 7) ∧
    mkJQueryResponse (JSVal.vlist []) (some (ExcArg.excE (PExc.userExc 9))) {} =
      Except.error (PExc.userExc 9) :=
  ⟨rfl, rfl, rfl, rfl⟩

/-- C4: the claim says `get` and `set` raise immediately on a name that is
not a valid identifier, without an executor call.  The source guard uses
`or` where `new` uses `and`, so the non-identifier name `123abc` passes the
guard and is interpolated into a script that is sent to the executor; only
`new` validates as the claim states. -/
theorem c4_get_set_reach_executor :
    JavaScriptObject.get oW remoteEcho (ExecState.mk []) "123abc" =
      Except.ok (JSVal.vstr "return 123abc",
        ExecState.mk [("return 123abc", [])]) ∧
    JavaScriptObject.set oW remoteEcho (ExecState.mk []) "123abc" (JSVal.vnum 1) =
      Except.ok (JSVal.vstr "123abc = arguments[0]",
        ExecState.mk [("123abc = arguments[0]", [JSVal.vnum 1])]) ∧
    JavaScriptObject.new "Foo" "bad name" remoteEcho (ExecState.mk []) [] {} =
      Except.error (PExc.invalidAttr "Invalid identifier bad name.") :=
  ⟨rfl, rfl, rfl⟩

/-- C5: the claim says an exception raised by the underlying executor is
captured and returned as a failed `JQueryResponse`.  In the code the
`except` branch constructs `JQueryResponse([], self, exc)`, whose
initializer stores `_exc` and then triggers the deferred raise while the
superclass initializer reads `self.strobj`, so the original exception
propagates out of `execute_script` instead. -/
theorem c5_execute_script_propagates :
    S_execute_script remoteRaise (ExecState.mk []) "return document.title" [] =
      Except.error (PExc.userExc 3) := rfl

/-- C2: resolving a name whose remote type is `undefined` (neither a
function nor a defined property) through `invoke` yields `None` — the
object and its cache are unchanged and no error is raised — unless a
non-`None` `attrargs` demanded function semantics, in which case
`InvalidJavaScriptAttribute` is raised. -/
theorem c2_undefined_attribute (o : JavaScriptObject) (remote : ExecFn)
    (st : ExecState) (name : String) (execargs : List JSVal) (opts : LocalOpts)
    (jsdef : String) (passobj : Bool)
    (hdef : o._define (some name) = Except.ok (jsdef, passobj))
    (hrem : remote ("return " ++ ("typeof(" ++ jsdef ++ ")"))
        (execCallArgs o passobj execargs) =
      Except.ok (JSVal.vstr "undefined")) :
    o.invoke remote st (some name) execargs none opts =
      Except.ok (RetVal.vnone, o,
        ExecState.mk ((st.log ++ [("return " ++ ("typeof(" ++ jsdef ++ ")"),
            execCallArgs o passobj execargs)]) ++
          [("return " ++ ("typeof(" ++ jsdef ++ ")"),
            execCallArgs o passobj execargs)])) ∧
    ∀ aargs : List JSVal,
      o.invoke remote st (some name) execargs (some aargs) opts =
        Except.error (PExc.invalidAttr ("No function named " ++ name ++ ".")) := by
  constructor
  · simp [JavaScriptObject.invoke, JavaScriptObject.wrapfunction,
      JavaScriptObject.wrapproperty, JavaScriptObject._exec, executeScript,
      hdef, hrem, JSVal.isStr]
  · intro aargs
    simp [JavaScriptObject.invoke, JavaScriptObject.wrapfunction,
      JavaScriptObject._exec, executeScript, hdef, hrem, JSVal.isStr]

/-- Witness for C2 at the concrete object `w` with attribute `x` under an
executor for which every name is `undefined`. -/
theorem c2_undefined_attribute_witness :
    oW.invoke remoteUndef (ExecState.mk []) (some "x") [] none {} =
      Except.ok (RetVal.vnone, oW,
        ExecState.mk (([] ++ [("return " ++ ("typeof(" ++ "w.x" ++ ")"),
            execCallArgs oW false [])]) ++
          [("return " ++ ("typeof(" ++ "w.x" ++ ")"), execCallArgs oW false [])])) :=
  (c2_undefined_attribute oW remoteUndef (ExecState.mk []) "x" [] {} "w.x" false
    rfl rfl).1

/-- C9 counterexample: a successfully constructed `JavaScriptResponse`
does not raise `AttributeError` on `response`; its `__getattribute__`
catches the `AttributeError` from the never-assigned `_r` and returns a
failed `JavaScriptResponse` wrapping it instead. -/
theorem c9_counterexample_jsresponse :
    mkJavaScriptResponse (JSVal.velem 5) remoteNull (ExecState.mk []) none {} =
      Except.ok (jsrElem5, ExecState.mk []) ∧
    jsrGetattribute jsrElem5 "response" =
      Except.ok (JAttrVal.respv (mkFailedJSResponse (PExc.attributeError "_r"))) :=
  ⟨rfl, rfl⟩

/-- C9 amended: on every successfully constructed response the documented
wrapped result is unreachable through `response` because `_r` is never
assigned; `JQueryResponse` raises the `AttributeError`, while
`JavaScriptResponse.__getattribute__` catches it and returns a failed
`JavaScriptResponse` wrapping that `AttributeError`. -/
theorem c9_amended_response_unreachable :
    (∀ r : JQResponse, r.exc = none →
      jqrGetattribute r "response" = Except.error (PExc.attributeError "_r")) ∧
    (∀ r : JSResponse, r.exc = none →
      jsrGetattribute r "response" =
        Except.ok (JAttrVal.respv (mkFailedJSResponse (PExc.attributeError "_r")))) := by
  constructor
  · rintro ⟨exc, raw, inner⟩ h
    subst h
    rfl
  · rintro ⟨exc, raw, inner⟩ h
    subst h
    rfl

/-- Witness for the amended C9 at concrete successful responses. -/
theorem c9_amended_response_unreachable_witness :
    jqrGetattribute jqrNilOk "response" =
      Except.error (PExc.attributeError "_r") ∧
    jsrGetattribute jsrNullOk "response" =
      Except.ok (JAttrVal.respv (mkFailedJSResponse (PExc.attributeError "_r"))) :=
  ⟨c9_amended_response_unreachable.1 jqrNilOk rfl,
   c9_amended_response_unreachable.2 jsrNullOk rfl⟩

/-- C7 counterexample: a `JavaScriptObject` constructed from a whitespace
string (with `strobj` false) keeps no wrapped object: `definition_root` is
`None` — neither `"arguments[0]"` nor a name — and `_define` substitutes
the attribute name itself as the script root without passing any object
positionally, a third representation the claim does not admit. -/
theorem c7_counterexample_global_object :
    (mkJavaScriptObject (some (ObjRef.jstr " ")) [] {}).definition_root = none ∧
    (mkJavaScriptObject (some (ObjRef.jstr " ")) [] {})._define (some "x") =
      Except.ok ("x", false) :=
  ⟨rfl, rfl⟩

/-- Helper: the argument list built inside `wrapfunction` and
`wrapproperty` coincides with the one `_exec` passes. -/
theorem execCallArgs_eq (o : JavaScriptObject) (passobj : Bool)
    (args : List JSVal) :
    (if passobj then [objVal o] else []) ++ (JSVal.vtuple o.execargs :: args) =
      execCallArgs o passobj args := by
  unfold execCallArgs
  cases passobj <;> simp

/-- C3: after `invoke` resolves a name as a property with caching enabled,
the getter is cached under the name, and a later access through
`__getattr__` or `__getitem__` returns the cached entry with the object,
its cache, and the executor log untouched — no fresh resolution happens
and no overwrite occurs without a new `invoke`. -/
theorem c3_cached_property_returned (o : JavaScriptObject) (remote : ExecFn)
    (st : ExecState) (name : String) (execargs : List JSVal) (opts : LocalOpts)
    (jsdef : String) (passobj : Bool) (t : String) (v : JSVal)
    (hdef : o._define (some name) = Except.ok (jsdef, passobj))
    (htype : remote ("return " ++ ("typeof(" ++ jsdef ++ ")"))
        (execCallArgs o passobj execargs) = Except.ok (JSVal.vstr t))
    (hnf : t ≠ "function") (hnu : t ≠ "undefined")
    (hval : remote ("return " ++ jsdef) (execCallArgs o passobj execargs) =
      Except.ok v)
    (hcache : getopt opts.cacheattr o.cacheattrs = true)
    (hprop : getopt opts.ifprop o.cacheprops = true)
    (hnew : o.attrs.lookup (some name) = none) :
    o.invoke remote st (some name) execargs none opts =
      Except.ok (RetVal.val v,
        cachedWith o name (RetVal.getter (propGetterOf o jsdef passobj execargs)),
        ExecState.mk (((st.log ++
            [("return " ++ ("typeof(" ++ jsdef ++ ")"),
              execCallArgs o passobj execargs)]) ++
            [("return " ++ ("typeof(" ++ jsdef ++ ")"),
              execCallArgs o passobj execargs)]) ++
          [("return " ++ jsdef, execCallArgs o passobj execargs)])) ∧
    ∀ (remote2 : ExecFn) (st2 : ExecState),
      (cachedWith o name
          (RetVal.getter (propGetterOf o jsdef passobj execargs))).getattrAccess
          remote2 st2 name =
        Except.ok (RetVal.getter (propGetterOf o jsdef passobj execargs),
          cachedWith o name (RetVal.getter (propGetterOf o jsdef passobj execargs)),
          st2) ∧
      (cachedWith o name
          (RetVal.getter (propGetterOf o jsdef passobj execargs))).getitemAccess
          remote2 st2 name execargs =
        Except.ok (RetVal.getter (propGetterOf o jsdef passobj execargs),
          cachedWith o name (RetVal.getter (propGetterOf o jsdef passobj execargs)),
          st2) := by
  constructor
  · simp [JavaScriptObject.invoke, JavaScriptObject.wrapfunction,
      JavaScriptObject.wrapproperty, JavaScriptObject._exec, executeScript,
      callGetter, execCallArgs_eq, hdef, htype, hval, JSVal.isStr, hnf, hnu,
      cacheUpdate, hcache, hprop, hnew, RetVal.truthy, cachedWith, propGetterOf]
  · intro remote2 st2
    have hl : (cachedWith o name
        (RetVal.getter (propGetterOf o jsdef passobj execargs))).attrs.lookup
          (some name) =
        some (RetVal.getter (propGetterOf o jsdef passobj execargs)) := by
      simp [cachedWith, List.lookup]
    exact ⟨getattr_cached _ remote2 st2 name _ hl,
      getitem_cached _ remote2 st2 name execargs _ hl⟩

/-- Witness for C3: a concrete run against an executor where `w.x` is a
number-valued property, followed by a cached access. -/
theorem c3_cached_property_returned_witness :
    oW.invoke remoteProp (ExecState.mk []) (some "x") [] none
        { cacheattr := some true } =
      Except.ok (RetVal.val (JSVal.vnum 7),
        cachedWith oW "x" (RetVal.getter (propGetterOf oW "w.x" false [])),
        ExecState.mk ((([] ++
            [("return " ++ ("typeof(" ++ "w.x" ++ ")"), execCallArgs oW false [])]) ++
            [("return " ++ ("typeof(" ++ "w.x" ++ ")"), execCallArgs oW false [])]) ++
          [("return " ++ "w.x", execCallArgs oW false [])])) ∧
    (cachedWith oW "x" (RetVal.getter (propGetterOf oW "w.x" false []))).getattrAccess
        remoteNull (ExecState.mk []) "x" =
      Except.ok (RetVal.getter (propGetterOf oW "w.x" false []),
        cachedWith oW "x" (RetVal.getter (propGetterOf oW "w.x" false [])),
        ExecState.mk []) :=
  ⟨(c3_cached_property_returned oW remoteProp (ExecState.mk []) "x" []
      { cacheattr := some true } "w.x" false "number" (JSVal.vnum 7) rfl rfl
      (by decide) (by decide) rfl rfl rfl rfl).1,
   ((c3_cached_property_returned oW remoteProp (ExecState.mk []) "x" []
      { cacheattr := some true } "w.x" false "number" (JSVal.vnum 7) rfl rfl
      (by decide) (by decide) rfl rfl rfl rfl).2 remoteNull (ExecState.mk [])).1⟩

/-- C10: with caching enabled and overwrite on, `invoke` writes the cache
entry even when the kind-specific flag rejects the resolved attribute — it
then stores `None` under the name — and every later access through
`__getattr__` or `__getitem__` returns `None` with no executor call. -/
theorem c10_overwrite_caches_none (o : JavaScriptObject) (remote : ExecFn)
    (st : ExecState) (name : String) (execargs : List JSVal) (opts : LocalOpts)
    (jsdef : String) (passobj : Bool)
    (hdef : o._define (some name) = Except.ok (jsdef, passobj))
    (hcache : getopt opts.cacheattr o.cacheattrs = true)
    (how : getopt opts.overwrite o.overwrite = true) :
    (remote ("return " ++ ("typeof(" ++ jsdef ++ ")"))
        (execCallArgs o passobj execargs) = Except.ok (JSVal.vstr "function") →
      remote ("return " ++ (jsdef ++ ".length"))
        (execCallArgs o passobj execargs) = Except.ok (JSVal.vnum 0) →
      getopt opts.iffunc o.cachefuncs = false →
      o.invoke remote st (some name) execargs none opts =
        Except.ok (RetVal.fn (nullaryProxyOf o jsdef passobj execargs),
          cachedWith o name RetVal.vnone,
          ExecState.mk ((st.log ++
            [("return " ++ ("typeof(" ++ jsdef ++ ")"),
              execCallArgs o passobj execargs)]) ++
            [("return " ++ (jsdef ++ ".length"),
              execCallArgs o passobj execargs)]))) ∧
    (∀ (t : String) (v : JSVal),
      remote ("return " ++ ("typeof(" ++ jsdef ++ ")"))
        (execCallArgs o passobj execargs) = Except.ok (JSVal.vstr t) →
      t ≠ "function" → t ≠ "undefined" →
      remote ("return " ++ jsdef) (execCallArgs o passobj execargs) =
        Except.ok v →
      getopt opts.ifprop o.cacheprops = false →
      o.invoke remote st (some name) execargs none opts =
        Except.ok (RetVal.val v, cachedWith o name RetVal.vnone,
          ExecState.mk (((st.log ++
              [("return " ++ ("typeof(" ++ jsdef ++ ")"),
                execCallArgs o passobj execargs)]) ++
              [("return " ++ ("typeof(" ++ jsdef ++ ")"),
                execCallArgs o passobj execargs)]) ++
            [("return " ++ jsdef, execCallArgs o passobj execargs)]))) ∧
    (∀ (o2 : JavaScriptObject) (remote2 : ExecFn) (st2 : ExecState),
      o2.attrs.lookup (some name) = some RetVal.vnone →
      o2.getattrAccess remote2 st2 name = Except.ok (RetVal.vnone, o2, st2) ∧
      o2.getitemAccess remote2 st2 name execargs =
        Except.ok (RetVal.vnone, o2, st2)) := by
  refine ⟨?_, ?_, ?_⟩
  · intro htype harity hfn
    simp [JavaScriptObject.invoke, JavaScriptObject.wrapfunction,
      JavaScriptObject._exec, executeScript, execCallArgs_eq, hdef, htype,
      harity, JSVal.isStr, cacheUpdate, hcache, hfn, how, RetVal.truthy,
      cachedWith, nullaryProxyOf]
  · intro t v htype hnf hnu hval hpr
    simp [JavaScriptObject.invoke, JavaScriptObject.wrapfunction,
      JavaScriptObject.wrapproperty, JavaScriptObject._exec, executeScript,
      callGetter, execCallArgs_eq, hdef, htype, hval, JSVal.isStr, hnf, hnu,
      cacheUpdate, hcache, hpr, how, RetVal.truthy, cachedWith]
  · intro o2 remote2 st2 hl
    exact ⟨getattr_cached _ remote2 st2 name _ hl,
      getitem_cached _ remote2 st2 name execargs _ hl⟩

/-- Witness for C10: with `iffunc := false` a run that resolves `w.f` as a
function caches `None`, and the cached `None` is returned by a later
access. -/
theorem c10_overwrite_caches_none_witness :
    oW.invoke remoteFunc (ExecState.mk []) (some "f") [] none
        { cacheattr := some true, iffunc := some false } =
      Except.ok (RetVal.fn (nullaryProxyOf oW "w.f" false []),
        cachedWith oW "f" RetVal.vnone,
        ExecState.mk (([] ++
          [("return " ++ ("typeof(" ++ "w.f" ++ ")"), execCallArgs oW false [])]) ++
          [("return " ++ ("w.f" ++ ".length"), execCallArgs oW false [])])) ∧
    (cachedWith oW "f" RetVal.vnone).getattrAccess remoteNull (ExecState.mk [])
        "f" =
      Except.ok (RetVal.vnone, cachedWith oW "f" RetVal.vnone, ExecState.mk []) :=
  ⟨(c10_overwrite_caches_none oW remoteFunc (ExecState.mk []) "f" []
      { cacheattr := some true, iffunc := some false } "w.f" false
      rfl rfl rfl).1 rfl rfl rfl,
   (((c10_overwrite_caches_none oW remoteFunc (ExecState.mk []) "f" []
      { cacheattr := some true, iffunc := some false } "w.f" false
      rfl rfl rfl).2.2 (cachedWith oW "f" RetVal.vnone) remoteNull
      (ExecState.mk [])) (by simp [cachedWith, List.lookup])).1⟩

/-- C6: `wrapproperty` costs exactly one executor round trip (the `typeof`
check); `wrapfunction` costs exactly two when the name is a function (the
`typeof` check plus the arity read) and exactly one otherwise; and each
invocation of a returned callable proxy or property getter costs exactly
one further round trip. -/
theorem c6_round_trip_counts (o : JavaScriptObject) (remote : ExecFn)
    (st : ExecState) (name : Option String) (execargs : List JSVal)
    (af : Bool) :
    (∀ (p : Option PropProxy) (st2 : ExecState),
      o.wrapproperty remote st name execargs af = Except.ok (p, st2) →
      st2.log.length = st.log.length + 1) ∧
    (∀ (f : FuncProxy) (st2 : ExecState),
      o.wrapfunction remote st name execargs = Except.ok (some f, st2) →
      st2.log.length = st.log.length + 2) ∧
    (∀ st2 : ExecState,
      o.wrapfunction remote st name execargs = Except.ok (none, st2) →
      st2.log.length = st.log.length + 1) ∧
    (∀ (p : FuncProxy) (callargs : List JSVal) (v : JSVal) (st2 : ExecState),
      callProxy p remote st callargs = Except.ok (v, st2) →
      st2.log.length = st.log.length + 1) ∧
    (∀ (g : PropProxy) (v : JSVal) (st2 : ExecState),
      callGetter g remote st = Except.ok (v, st2) →
      st2.log.length = st.log.length + 1) := by
  refine ⟨?_, ?_, ?_, ?_, ?_⟩
  · intro p st2 h
    unfold JavaScriptObject.wrapproperty at h
    split at h
    next e heq => simp at h
    next jsdef passobj heq =>
      split at h
      next e heq2 => simp at h
      next resType st1 heq2 =>
        have h1 := exec_ok_log o remote st _ _ execargs resType st1 heq2
        split at h <;> (cases h; exact h1)
  · intro f st2 h
    unfold JavaScriptObject.wrapfunction at h
    split at h
    next e heq => simp at h
    next jsdef passobj heq =>
      split at h
      next e heq2 => simp at h
      next resType st1 heq2 =>
        have h1 := exec_ok_log o remote st _ _ execargs resType st1 heq2
        split at h
        · split at h
          next e heq3 => simp at h
          next ar st3 heq3 =>
            have h2 := exec_ok_log o remote st1 _ _ execargs (JSVal.vnum ar) st3 heq3
            by_cases har : ar = 0
            · rw [if_pos har] at h
              cases h
              omega
            · rw [if_neg har] at h
              simp only [] at h
              cases h
              omega
          next v2 st3 heq3 hne => simp at h
        · simp at h
  · intro st2 h
    unfold JavaScriptObject.wrapfunction at h
    split at h
    next e heq => simp at h
    next jsdef passobj heq =>
      split at h
      next e heq2 => simp at h
      next resType st1 heq2 =>
        have h1 := exec_ok_log o remote st _ _ execargs resType st1 heq2
        split at h
        · split at h
          next e heq3 => simp at h
          next ar st3 heq3 =>
            by_cases har : ar = 0
            · rw [if_pos har] at h
              simp at h
            · rw [if_neg har] at h
              simp at h
          next v2 st3 heq3 hne => simp at h
        · cases h
          exact h1
  · intro p callargs v st2 h
    unfold callProxy at h
    split at h
    · exact executeScript_ok_log remote st p.script (p.preargs ++ callargs) v st2 h
    · simp at h
  · intro g v st2 h
    exact executeScript_ok_log remote st g.script g.args v st2 h

/-- Witness for C6: a concrete resolution of the function `w.f` makes
exactly two round trips. -/
theorem c6_round_trip_counts_witness :
    (ExecState.mk [("return typeof(w.f)", execCallArgs oW false []),
      ("return w.f.length", execCallArgs oW false [])]).log.length =
      (ExecState.mk []).log.length + 2 :=
  (c6_round_trip_counts oW remoteFunc (ExecState.mk []) (some "f") [] true).2.1
    (nullaryProxyOf oW "w.f" false [])
    (ExecState.mk [("return typeof(w.f)", execCallArgs oW false []),
      ("return w.f.length", execCallArgs oW false [])]) rfl

/-- C8: a proxy obtained for a zero-argument function holds one fixed
script and fixed bound arguments, so two invocations against the same pure
executor oracle (no remote-side mutation between the reads) return the
same value regardless of how many round trips were logged before each
call. -/
theorem c8_nullary_reads_equal (o : JavaScriptObject) (remote : ExecFn)
    (st : ExecState) (name : Option String) (execargs : List JSVal)
    (f : FuncProxy) (st1 : ExecState)
    (hwrap : o.wrapfunction remote st name execargs = Except.ok (some f, st1))
    (har : f.arity = 0) (stA stB : ExecState) :
    Except.map Prod.fst (callProxy f remote stA []) =
      Except.map Prod.fst (callProxy f remote stB []) := by
  unfold callProxy executeScript
  simp only [har, List.length_nil]
  cases hr : remote f.script (f.preargs ++ []) <;> simp [Except.map, hr]

/-- Witness for C8: the concrete nullary proxy for `w.f` reads the same
value from two different executor states. -/
theorem c8_nullary_reads_equal_witness :
    Except.map Prod.fst (callProxy (nullaryProxyOf oW "w.f" false []) remoteFunc
        (ExecState.mk [("a", [])]) []) =
      Except.map Prod.fst (callProxy (nullaryProxyOf oW "w.f" false []) remoteFunc
        (ExecState.mk []) []) :=
  c8_nullary_reads_equal oW remoteFunc (ExecState.mk []) (some "f") []
    (nullaryProxyOf oW "w.f" false [])
    (ExecState.mk [("return typeof(w.f)", execCallArgs oW false []),
      ("return w.f.length", execCallArgs oW false [])]) rfl rfl
    (ExecState.mk [("a", [])]) (ExecState.mk [])

/-- Helper: replacing only the attribute cache (conditionally) leaves the
wrapped object untouched. -/
theorem setAttrs_obj (o : JavaScriptObject) (c : Prop) [Decidable c]
    (x : List (Option String × RetVal)) :
    (if c then { o with attrs := x } else o).obj = o.obj := by
  split <;> rfl

/-- Helper: replacing only the attribute cache (conditionally) leaves the
`strobj` flag untouched. -/
theorem setAttrs_strobj (o : JavaScriptObject) (c : Prop) [Decidable c]
    (x : List (Option String × RetVal)) :
    (if c then { o with attrs := x } else o).strobj = o.strobj := by
  split <;> rfl

/-- Helper: the caching block never changes the wrapped object or the
`strobj` flag, only the attribute cache. -/
theorem cacheUpdate_preserves (o : JavaScriptObject) (name : Option String)
    (f : Option FuncProxy) (prop : Option PropProxy) (opts : LocalOpts) :
    (cacheUpdate o name f prop opts).obj = o.obj ∧
    (cacheUpdate o name f prop opts).strobj = o.strobj := by
  unfold cacheUpdate
  split
  · exact ⟨setAttrs_obj o _ _, setAttrs_strobj o _ _⟩
  · exact ⟨rfl, rfl⟩

/-- Helper: `invoke` never changes the wrapped object or the `strobj` flag
of the object it returns. -/
theorem invoke_preserves_representation (o : JavaScriptObject) (remote : ExecFn)
    (st : ExecState) (name : Option String) (execargs : List JSVal)
    (attrargs : Option (List JSVal)) (opts : LocalOpts) (res : RetVal)
    (o2 : JavaScriptObject) (st2 : ExecState)
    (h : o.invoke remote st name execargs attrargs opts =
      Except.ok (res, o2, st2)) :
    o2.obj = o.obj ∧ o2.strobj = o.strobj := by
  unfold JavaScriptObject.invoke at h
  split at h
  next e heq => simp at h
  next f st1 heq =>
    split at h
    · cases h
      exact cacheUpdate_preserves o name (some f) none opts
    · split at h
      next e heq2 => simp at h
      next v st3 heq2 =>
        cases h
        exact cacheUpdate_preserves o name (some f) none opts
  next st1 heq =>
    split at h
    · simp at h
    · split at h
      next e heq2 => simp at h
      next g st3 heq2 =>
        split at h
        next e heq3 => simp at h
        next v st4 heq3 =>
          cases h
          exact cacheUpdate_preserves o name none (some g) opts
      next st3 heq2 =>
        cases h
        exact ⟨rfl, rfl⟩

/-- Helper: `stringify` extends its root on the left. -/
theorem stringify_suffix (oname name : String) :
    ∃ suffix, stringify oname name = oname ++ suffix := by
  unfold stringify
  split
  · exact ⟨"", (String.append_empty oname).symm⟩
  · split
    · exact ⟨"[\"" ++ name ++ "\"]", by simp [String.append_assoc]⟩
    · split
      · exact ⟨name, rfl⟩
      · exact ⟨"." ++ name, by simp [String.append_assoc]⟩

/-- C7 amended: for every object that keeps a wrapped reference (`_obj`
not `None`), exactly one of the two representations holds — textual (a
string object with `strobj` false): `definition_root` is the name,
`_define` roots scripts at the name without passing the object, and the
enumeration script is rooted at the name; or opaque: `definition_root` is
`"arguments[0]"`, `_define` roots scripts there and the enumeration
script passes the object positionally — and `invoke` never changes the
representation.  An object left with `_obj = None` has
`definition_root = None` and falls outside the claim's dichotomy. -/
theorem c7_amended_two_representations (o : JavaScriptObject) :
    (o.obj = none → o.definition_root = none) ∧
    (∀ s : String, o.obj = some (ObjRef.jstr s) → o.strobj = false →
      o.definition_root = some s ∧
      (∀ (nm : Option String) (root : String) (pb : Bool),
        o._define nm = Except.ok (root, pb) →
        pb = false ∧ ∃ suffix, root = s ++ suffix) ∧
      (∀ (remote : ExecFn) (st : ExecState) (args : List JSVal),
        o.attributesM remote st args =
          executeScript remote st
            ("return " ++ ("Object.getOwnPropertyNames(" ++ s ++ ")"))
            (JSVal.vtuple o.execargs :: args))) ∧
    (∀ r : ObjRef, o.obj = some r →
      (o.strobj = true ∨ ∃ v, r = ObjRef.pyobj v) →
      o.definition_root = some "arguments[0]" ∧
      (∀ (nm : Option String) (root : String) (pb : Bool),
        o._define nm = Except.ok (root, pb) →
        pb = true ∧ ∃ suffix, root = "arguments[0]" ++ suffix) ∧
      (∀ (remote : ExecFn) (st : ExecState) (args : List JSVal),
        o.attributesM remote st args =
          executeScript remote st
            ("return " ++ ("Object.getOwnPropertyNames(" ++ "arguments[0]" ++ ")"))
            (objVal o :: (JSVal.vtuple o.execargs :: args)))) ∧
    (∀ (remote : ExecFn) (st : ExecState) (nm : Option String)
        (execargs : List JSVal) (attrargs : Option (List JSVal))
        (opts : LocalOpts) (res : RetVal) (o2 : JavaScriptObject)
        (st2 : ExecState),
      o.invoke remote st nm execargs attrargs opts = Except.ok (res, o2, st2) →
      o2.definition_root = o.definition_root) := by
  refine ⟨?_, ?_, ?_, ?_⟩
  · intro h
    unfold JavaScriptObject.definition_root
    rw [h]
  · intro s hobj hstr
    refine ⟨?_, ?_, ?_⟩
    · unfold JavaScriptObject.definition_root
      rw [hobj, hstr]
      simp
    · intro nm root pb hd
      unfold JavaScriptObject._define at hd
      rw [hobj, hstr] at hd
      simp only [Except.ok.injEq, Prod.mk.injEq] at hd
      refine ⟨hd.2.symm, ?_⟩
      rw [← hd.1]
      exact stringify_suffix s _
    · intro remote st args
      unfold JavaScriptObject.attributesM JavaScriptObject._define
      rw [hobj, hstr]
      unfold JavaScriptObject._exec execCallArgs
      simp [stringify, noneoremptystr, pstrip]
  · intro r hobj hcase
    have hkey : o._define none = Except.ok ("arguments[0]", true) ∧
        o.definition_root = some "arguments[0]" ∧
        (∀ (nm : Option String) (root : String) (pb : Bool),
          o._define nm = Except.ok (root, pb) →
          pb = true ∧ ∃ suffix, root = "arguments[0]" ++ suffix) := by
      cases r with
      | jstr s =>
        rcases hcase with hs | ⟨v, hv⟩
        · refine ⟨?_, ?_, ?_⟩
          · unfold JavaScriptObject._define
            rw [hobj, hs]
            simp [stringify, noneoremptystr, pstrip]
          · unfold JavaScriptObject.definition_root
            rw [hobj, hs]
            simp
          · intro nm root pb hd
            unfold JavaScriptObject._define at hd
            rw [hobj, hs] at hd
            simp only [Except.ok.injEq, Prod.mk.injEq] at hd
            refine ⟨hd.2.symm, ?_⟩
            rw [← hd.1]
            exact stringify_suffix "arguments[0]" _
        · exact absurd hv (by simp)
      | pyobj v =>
        refine ⟨?_, ?_, ?_⟩
        · unfold JavaScriptObject._define
          rw [hobj]
          simp [stringify, noneoremptystr, pstrip]
        · unfold JavaScriptObject.definition_root
          rw [hobj]
        · intro nm root pb hd
          unfold JavaScriptObject._define at hd
          rw [hobj] at hd
          simp only [Except.ok.injEq, Prod.mk.injEq] at hd
          refine ⟨hd.2.symm, ?_⟩
          rw [← hd.1]
          exact stringify_suffix "arguments[0]" _
    refine ⟨hkey.2.1, hkey.2.2, ?_⟩
    intro remote st args
    unfold JavaScriptObject.attributesM
    rw [hkey.1]
    unfold JavaScriptObject._exec execCallArgs
    simp
  · intro remote st nm execargs attrargs opts res o2 st2 h
    obtain ⟨h1, h2⟩ := invoke_preserves_representation o remote st nm execargs
      attrargs opts res o2 st2 h
    unfold JavaScriptObject.definition_root
    rw [h1, h2]

/-- Witness for the amended C7 at the concrete name-rooted object `w`. -/
theorem c7_amended_two_representations_witness :
    oW.definition_root = some "w" :=
  ((c7_amended_two_representations oW).2.1 "w" rfl rfl).1
